import Mathlib

/-!
# Verification of the `egui_inspect` derive-macro code generator

A shallow embedding of the `egui_inspect` repository: the derive macro in
`egui_inspect_derive/src/lib.rs` and `egui_inspect_derive/src/utils.rs`, and
the runtime support library in `egui_inspect/src/lib.rs`.

The macro consumes a `syn`-parsed structure shape (named fields, tuple
fields, enum variants) carrying parsed `#[inspect(...)]` attributes, and
produces a token stream: one `impl egui_inspect::EguiInspect for T` block
with an `inspect` and an `inspect_mut` method.  We embed the input shape as
inductive data, the produced token stream as an inductive syntax of the
statement shapes the generator can actually emit, and each generator
function as a Lean function of the same name.  `unimplemented!` panics are
embedded as `Except.error` carrying the panic message.

The module `internal_paths.rs` (the built-in specializations for recognized
internal type paths) is referenced by `lib.rs` but its source is not part of
this tree; the dispatcher `handle_named_field` is therefore parameterized by
that handler (a function returning `Option TokenStream`), and every theorem
about the dispatch holds uniformly in it.
-/

namespace Egui

/-- Parsed field attributes, from `struct AttributeArgs` in
`egui_inspect_derive/src/lib.rs` (darling `#[inspect(...)]` arguments).
The numeric `min`/`max` arguments (`f32`, consumed only by the absent
`internal_paths` module) are not needed by any embedded code path and are
omitted. -/
structure AttributeArgs where
  /-- Name of the field to be displayed on UI labels. -/
  name : Option String
  /-- Doesn't generate code for the given field. -/
  hide : Bool
  /-- Doesn't call mut function for the given field. -/
  no_edit : Bool
  /-- Use slider function for numbers. -/
  slider : Bool
  /-- Display mut text on multiple line. -/
  multiline : Bool
  /-- Use custom function for non-mut inspect. -/
  custom_func : Option String
  /-- Use custom function for mut inspect. -/
  custom_func_mut : Option String
  deriving Repr, DecidableEq

/-- `impl Default for AttributeArgs` in `lib.rs`. -/
def AttributeArgs.default : AttributeArgs :=
  { name := none, hide := false, no_edit := false, slider := true,
    multiline := false, custom_func := none, custom_func_mut := none }

/-- A named field as the generator consumes it: identifier, the path text of
its type (used only by the absent `internal_paths` handler), and its parsed
attributes.  (`syn::Field`; the generator only ever reads the identifier and
attributes of named fields.) -/
structure Field where
  ident : String
  ty : String
  attrs : AttributeArgs
  deriving Repr, DecidableEq

/-- `syn::Fields`: the field list of a struct or of an enum variant.
Tuple (unnamed) fields are consumed only through their count: the generator
iterates `fields.unnamed.iter().enumerate()` discarding the fields, and the
combo-box path maps every unnamed field to `Default::default()`. -/
inductive Fields where
  | named : List Field → Fields
  | unnamed : Nat → Fields
  | unit : Fields
  deriving Repr, DecidableEq

/-- `syn::Variant`: an enum variant (identifier and fields). -/
structure Variant where
  ident : String
  fields : Fields
  deriving Repr, DecidableEq

/-- `syn::Data`: the shape of the derive input. -/
inductive Data where
  | struct : Fields → Data
  | enum : List Variant → Data
  | union : Data
  deriving Repr, DecidableEq

/-- A generic type parameter with its bounds (`syn::GenericParam::Type`,
restricted to what `add_trait_bounds` touches). -/
structure TypeParam where
  ident : String
  bounds : List String
  deriving Repr, DecidableEq

/-- `syn::DeriveInput`: the macro input. -/
structure DeriveInput where
  ident : String
  generics : List TypeParam
  data : Data
  deriving Repr, DecidableEq

/-! ## The produced token stream

The generator only ever emits finitely many statement shapes; we give them
as an inductive syntax.  A `TokenStream` is the list of emitted statements
(`quote!()` is the empty list, `#(#xs)*` is concatenation). -/

/-- The base expression a field access is generated against:
`self.name` for a struct field, or the loose binding `name` introduced by an
enum-variant match arm (`loose` mode of `get_default_function_call`). -/
inductive RBase where
  | self_field : String → RBase
  | loose_var : String → RBase
  deriving Repr, DecidableEq

/-- A Rust expression in a generated variant constructor argument.  The
generator only ever emits `Default::default()` there; the second
constructor exists so that "every argument is `Default::default()`" is a
contentful statement about the generated code. -/
inductive RExpr where
  | defaultDefault : RExpr
  | otherExpr : String → RExpr
  deriving Repr, DecidableEq

/-- The constructor expression generated for an enum variant
(`#_struct_name::#ident { ... }` / `(...)` / unit). -/
inductive CtorExpr where
  | named : String → String → List (String × RExpr) → CtorExpr
  | unnamed : String → String → List RExpr → CtorExpr
  | unit : String → String → CtorExpr
  deriving Repr, DecidableEq

/-- One arm of the generated `let current_variant = match self { ... }`:
pattern `#_struct_name::#ident {..} / (..) / ∅ => stringify!(#ident)`.
`result` is the string the arm evaluates to (`stringify!` of the variant
identifier in the source). -/
structure NameArm where
  variantIdent : String
  result : String
  deriving Repr, DecidableEq

mutual

/-- A statement shape the generator can emit. -/
inductive Stmt where
  /-- `ui.strong(label);` -/
  | uiStrong : Stmt
  /-- `#base.inspect(&#name_str, ui);` (method-call syntax, read-only). -/
  | methodInspect : RBase → String → Stmt
  /-- `#base.inspect_mut(&#name_str, ui);` (method-call syntax, mutable). -/
  | methodInspectMut : RBase → String → Stmt
  /-- `egui_inspect::EguiInspect::#method(#ref self.#idx, #label, ui);`
  where `method` is the literal method identifier emitted and `refMut`
  records whether the reference taken is `&mut` or `&`. -/
  | qualifiedTraitCall (method : String) (refMut : Bool) (idx : Nat) (label : String) : Stmt
  /-- `#path(&self.#field, &#label, ui);` or with `&mut`, a user custom
  callback invocation. -/
  | customCall (path : String) (refMut : Bool) (field : String) (label : String) : Stmt
  /-- `let current_variant = match self { #arms };` -/
  | letCurrentVariant : List NameArm → Stmt
  /-- `ui.horizontal(|ui| { ... });` -/
  | uiHorizontal : List Stmt → Stmt
  /-- `ui.label(stringify!(#_struct_name));` -/
  | uiLabelStructName : String → Stmt
  /-- `::egui::ComboBox::new(label, "").selected_text(#selectedVar)
  .show_ui(ui, |ui| { #opts });` -/
  | comboBox (selectedVar : String) (opts : List Stmt) : Stmt
  /-- `ui.selectable_value(self, #value, stringify!(#ident));` -/
  | selectableValue (value : CtorExpr) (text : String) : Stmt
  /-- `ui.label(format!("{label}: {current_variant}").as_str());` -/
  | uiLabelFmtLabelCurrent : Stmt
  /-- `match self { #arms };` -/
  | matchSelf : List InspectArm → Stmt

/-- One arm of the generated mutable `match self { ... }`: pattern on a
variant, body inspecting its (loose-bound) fields. -/
inductive InspectArm where
  | mk (variantIdent : String) (body : List Stmt) : InspectArm

end

/-- A generated token stream: a list of emitted statements. -/
abbrev TokenStream := List Stmt

/-- The variant identifier of a generated match arm. -/
def InspectArm.variantIdent : InspectArm → String
  | .mk v _ => v

/-- The body of a generated match arm. -/
def InspectArm.body : InspectArm → List Stmt
  | .mk _ b => b

/-! ## `utils.rs` -/

/-- `get_default_function_call` in `egui_inspect_derive/src/utils.rs`: the
generic fallback that calls the field's own `inspect` / `inspect_mut` trait
method.  The UI label is the `name` attribute when given, else the field's
own identifier; the receiver is `self.#name`, or the loose binding `#name`
inside an enum match arm. -/
def get_default_function_call (field : Field) (mutable : Bool)
    (attrs : AttributeArgs) (loose_field : Bool) : TokenStream :=
  let name_str := match attrs.name with
    | some n => n
    | none => field.ident
  let base : RBase := if loose_field then .loose_var field.ident else .self_field field.ident
  if mutable then
    [.methodInspectMut base name_str]
  else
    [.methodInspect base name_str]

/-! ## `lib.rs`: named-field dispatch -/

/-- `handle_custom_func` in `lib.rs`: returns the custom-callback invocation
when the matching custom function attribute is present (`custom_func_mut`
when mutable and editable, `custom_func` when read-only), else `none`. -/
def handle_custom_func (field : Field) (mutable : Bool)
    (attrs : AttributeArgs) : Option TokenStream :=
  let name_str := match attrs.name with
    | some n => n
    | none => field.ident
  if mutable && !attrs.no_edit && attrs.custom_func_mut.isSome then
    match attrs.custom_func_mut with
    | some f => some [.customCall f true field.ident name_str]
    | none => none
  else if (!mutable || (mutable && attrs.no_edit)) && attrs.custom_func.isSome then
    match attrs.custom_func with
    | some f => some [.customCall f false field.ident name_str]
    | none => none
  else
    none

/-- The type of the handler provided by the `internal_paths` module:
given a field, the effective mutability and the attributes, either a
specialized token stream for a recognized internal type path, or `none`.
Modelled from the spec: `internal_paths.rs` is declared by `lib.rs` but its
source is not in this tree; the spec says only that there is a "built-in
specialization for recognized primitive/container shapes", so we treat the
handler as an arbitrary function of this signature and prove the dispatch
properties uniformly in it. -/
abbrev InternalPathHandler := Field → Bool → AttributeArgs → Option TokenStream

/-- `handle_named_field` in `lib.rs`: per-field dispatch.  A hidden field
produces no code; otherwise the effective mutability is
`mutable && !no_edit`, and the first applicable tier wins: explicit custom
callback, then the `internal_paths` specialization, then the generic
fallback from `utils.rs`. -/
def handle_named_field (ip : InternalPathHandler) (f : Field)
    (mutable : Bool) (loose : Bool) : TokenStream :=
  let attr := f.attrs
  if attr.hide then [] else
  let mutable := mutable && !attr.no_edit
  match handle_custom_func f mutable attr with
  | some ts => ts
  | none =>
    match ip f mutable attr with
    | some ts => ts
    | none => get_default_function_call f mutable attr loose

/-- `handle_named_fields` in `lib.rs`: `ui.strong(label);` then the dispatch
output for each named field in order. -/
def handle_named_fields (ip : InternalPathHandler) (fields : List Field)
    (mutable : Bool) : TokenStream :=
  .uiStrong :: fields.flatMap (fun f => handle_named_field ip f mutable false)

/-- `handle_unnamed_fields` in `lib.rs`: `ui.strong(label);` then, for tuple
index `i`, the qualified call
`egui_inspect::EguiInspect::inspect(#ref_str self.#i, "Field i", ui);`
where `ref_str` is `&mut` when mutable and `&` otherwise.  (The emitted
method identifier is the literal `inspect` in both cases.) -/
def handle_unnamed_fields (count : Nat) (mutable : Bool) : TokenStream :=
  .uiStrong ::
    (List.range count).map (fun i =>
      .qualifiedTraitCall "inspect" mutable i ("Field " ++ toString i))

/-- `handle_fields` in `lib.rs`: dispatch on the field list shape; unit
field lists produce an empty implementation. -/
def handle_fields (ip : InternalPathHandler) (fields : Fields)
    (mutable : Bool) : TokenStream :=
  match fields with
  | .named fs => handle_named_fields ip fs mutable
  | .unnamed n => handle_unnamed_fields n mutable
  | .unit => []

/-! ## `lib.rs`: enums -/

/-- `variant_name_arm` in `lib.rs`: the arm
`#_struct_name::#ident {..} / (..) / ∅ => stringify!(#ident)` of the
`current_variant` match.  In every shape the arm's result is the
`stringify!`-ed variant identifier. -/
def variant_name_arm (variant : Variant) (_struct_name : String) : NameArm :=
  { variantIdent := variant.ident, result := variant.ident }

/-- `variant_combo` in `lib.rs`: the combo-box option for one variant:
`ui.selectable_value(self, #_struct_name::#ident ⟨all fields defaulted⟩,
stringify!(#ident))`.  Every constructor argument emitted is the literal
`Default::default()`. -/
def variant_combo (variant : Variant) (_struct_name : String) : Stmt :=
  match variant.fields with
  | .named fs =>
      .selectableValue
        (.named _struct_name variant.ident
          (fs.map (fun f => (f.ident, RExpr.defaultDefault))))
        variant.ident
  | .unnamed n =>
      .selectableValue
        (.unnamed _struct_name variant.ident
          ((List.range n).map (fun _ => RExpr.defaultDefault)))
        variant.ident
  | .unit =>
      .selectableValue (.unit _struct_name variant.ident) variant.ident

/-- `variant_inspect_arm` in `lib.rs`: the mutable match arm for one
variant.  Named fields are loose-bound and dispatched through
`handle_named_field` with `mutable = true` and `loose = true`; a unit
variant's arm does nothing; an unnamed-fields variant hits
`unimplemented!("TODO: unnamed")`, embedded as an error. -/
def variant_inspect_arm (ip : InternalPathHandler) (variant : Variant)
    (_struct_name : String) : Except String InspectArm :=
  match variant.fields with
  | .named fs =>
      .ok (.mk variant.ident (fs.flatMap (fun f => handle_named_field ip f true true)))
  | .unnamed _ => .error "TODO: unnamed"
  | .unit => .ok (.mk variant.ident [])

/-- `handle_enum` in `lib.rs`.  Both directions first bind
`current_variant` by matching `self` against every variant.  The mutable
direction draws a horizontal row with the enum's name and a combo box whose
selected text is `current_variant` and whose options are the per-variant
`selectable_value` calls, then matches `self` to inspect the current
variant's fields.  The read-only direction emits a single
`ui.label(format!("{label}: {current_variant}"))` and nothing else
(held data is not inspected). -/
def handle_enum (ip : InternalPathHandler) (variants : List Variant)
    (_struct_name : String) (mutable : Bool) : Except String TokenStream :=
  let name_arms := variants.map (fun v => variant_name_arm v _struct_name)
  if mutable then do
    let combo_opts := variants.map (fun v => variant_combo v _struct_name)
    let inspect_arms ← variants.mapM (fun v => variant_inspect_arm ip v _struct_name)
    .ok [.letCurrentVariant name_arms,
         .uiHorizontal [.uiLabelStructName _struct_name,
                        .comboBox "current_variant" combo_opts],
         .matchSelf inspect_arms]
  else
    .ok [.letCurrentVariant name_arms, .uiLabelFmtLabelCurrent]

/-- `inspect_struct` in `lib.rs`: dispatch on the input's data shape;
unions hit `unimplemented!("Unions are not yet supported")`. -/
def inspect_struct (ip : InternalPathHandler) (data : Data)
    (_struct_name : String) (mutable : Bool) : Except String TokenStream :=
  match data with
  | .struct fields => .ok (handle_fields ip fields mutable)
  | .enum variants => handle_enum ip variants _struct_name mutable
  | .union => .error "Unions are not yet supported"

/-! ## `lib.rs`: the derive entry point -/

/-- `add_trait_bounds` in `lib.rs`: adds the `egui_inspect::EguiInspect`
bound to every generic type parameter. -/
def add_trait_bounds (generics : List TypeParam) : List TypeParam :=
  generics.map (fun p => { p with bounds := p.bounds ++ ["egui_inspect::EguiInspect"] })

/-- A method of the generated impl block: its name, its receiver
(`&self` / `&mut self`), its further parameters (name, type), and its body. -/
structure ImplMethod where
  name : String
  selfParam : String
  params : List (String × String)
  body : TokenStream

/-- The generated `impl #impl_generics egui_inspect::EguiInspect for #name
#ty_generics #where_clause { ... }` block. -/
structure ImplBlock where
  traitName : String
  typeName : String
  generics : List TypeParam
  methods : List ImplMethod

/-- A top-level item of the macro's output token stream. -/
inductive Item where
  | implBlock : ImplBlock → Item

/-- `derive_egui_inspect` in `lib.rs`: the macro entry point.  It emits one
impl of `egui_inspect::EguiInspect` for the input type with exactly the two
methods `inspect(&self, label: &str, ui: &mut egui::Ui)` and
`inspect_mut(&mut self, label: &str, ui: &mut egui::Ui)`, whose bodies are
`inspect_struct` with `mutable = false` resp. `true`. -/
def derive_egui_inspect (ip : InternalPathHandler) (input : DeriveInput) :
    Except String (List Item) := do
  let name := input.ident
  let generics := add_trait_bounds input.generics
  let inspect ← inspect_struct ip input.data name false
  let inspect_mut ← inspect_struct ip input.data name true
  .ok [.implBlock
    { traitName := "egui_inspect::EguiInspect",
      typeName := name,
      generics := generics,
      methods :=
        [{ name := "inspect", selfParam := "&self",
           params := [("label", "&str"), ("ui", "&mut egui::Ui")],
           body := inspect },
         { name := "inspect_mut", selfParam := "&mut self",
           params := [("label", "&str"), ("ui", "&mut egui::Ui")],
           body := inspect_mut }] }]

/-! ## Runtime support library (`egui_inspect/src/lib.rs`)

The numeric fields of `egui::Margin` / `egui::Stroke` are `f32` in the
source; the library performs no arithmetic on them (they are only stored
and copied), so we embed them as exact rationals carrying the source
literals. -/

/-- `egui::Color32` (external), as an RGBA quadruple. -/
structure Color32 where
  r : Nat
  g : Nat
  b : Nat
  a : Nat
  deriving Repr, DecidableEq

/-- `egui::Color32::GRAY` (external constant, `from_rgb(160, 160, 160)`). -/
def Color32.GRAY : Color32 := ⟨160, 160, 160, 255⟩

/-- `egui::Color32::TRANSPARENT` (external constant). -/
def Color32.TRANSPARENT : Color32 := ⟨0, 0, 0, 0⟩

/-- `egui::Margin` (external). -/
structure Margin where
  left : ℚ
  right : ℚ
  bottom : ℚ
  top : ℚ
  deriving Repr, DecidableEq

/-- The zero margin (`egui::Margin::ZERO`). -/
def Margin.ZERO : Margin := ⟨0, 0, 0, 0⟩

/-- `egui::Stroke` (external). -/
structure Stroke where
  width : ℚ
  color : Color32
  deriving Repr, DecidableEq

/-- `egui::Stroke::NONE` (external constant). -/
def Stroke.NONE : Stroke := ⟨0, Color32.TRANSPARENT⟩

/-- `egui::Frame` (external), restricted to the components the library
sets: inner margin, outer margin, stroke. -/
structure Frame where
  inner_margin : Margin
  outer_margin : Margin
  stroke : Stroke
  deriving Repr, DecidableEq

/-- `egui::Frame::none()` (external): the empty frame. -/
def Frame.none : Frame := ⟨Margin.ZERO, Margin.ZERO, Stroke.NONE⟩

/-- The builder `egui::Frame::inner_margin` (external). -/
def Frame.set_inner_margin (f : Frame) (m : Margin) : Frame :=
  { f with inner_margin := m }

/-- The builder `egui::Frame::outer_margin` (external). -/
def Frame.set_outer_margin (f : Frame) (m : Margin) : Frame :=
  { f with outer_margin := m }

/-- The builder `egui::Frame::stroke` (external). -/
def Frame.set_stroke (f : Frame) (s : Stroke) : Frame :=
  { f with stroke := s }

/-- `struct FrameStyle` in `egui_inspect/src/lib.rs`. -/
structure FrameStyle where
  inner_margin : Margin
  outer_margin : Margin
  stroke : Stroke
  deriving Repr, DecidableEq

/-- `static DEFAULT_FRAME_STYLE` in `egui_inspect/src/lib.rs`:
inner margins 5.0 all around, outer margins 1.0 left/right and 1.5
top/bottom, gray stroke of width 0.7. -/
def DEFAULT_FRAME_STYLE : FrameStyle :=
  { inner_margin := { left := 5, right := 5, bottom := 5, top := 5 },
    outer_margin := { left := 1, right := 1, bottom := 1.5, top := 1.5 },
    stroke := { width := 0.7, color := Color32.GRAY } }

/-- `FrameStyle::to_frame` in `egui_inspect/src/lib.rs`:
`Frame::none().inner_margin(..).outer_margin(..).stroke(..)`. -/
def FrameStyle.to_frame (s : FrameStyle) : Frame :=
  ((Frame.none.set_inner_margin s.inner_margin).set_outer_margin
      s.outer_margin).set_stroke s.stroke

/-! ## Semantics of the generated fragments

Small evaluation functions used to state the claims about what the
generated code *renders*, not only which tokens it consists of. -/

/-- Evaluating `let current_variant = match self { #arms }` on a value
currently holding variant `cur`: the result of the first arm whose pattern
matches that variant. -/
def evalNameArms (arms : List NameArm) (cur : String) : Option String :=
  (arms.find? (fun a => a.variantIdent == cur)).map NameArm.result

/-- The text of `format!("{label}: {current_variant}")`. -/
def fmtLabelCurrent (label cur : String) : String := label ++ ": " ++ cur

/-- Whether a generated statement touches the UI at all (everything except
the pure `let current_variant = ...` binding does). -/
def Stmt.isWidget : Stmt → Bool
  | .letCurrentVariant _ => false
  | _ => true

/-- The texts of the labels a generated statement renders, given the
method's `label` argument and the value bound to `current_variant`. -/
def Stmt.labelTexts (label cur : String) : Stmt → List String
  | .uiLabelFmtLabelCurrent => [fmtLabelCurrent label cur]
  | .uiLabelStructName n => [n]
  | _ => []

/-- The selectable text of a generated `ui.selectable_value` call. -/
def Stmt.comboText : Stmt → Option String
  | .selectableValue _ t => some t
  | _ => none

/-- The value expression of a generated `ui.selectable_value` call (a junk
unit constructor on any other statement). -/
def Stmt.selValue : Stmt → CtorExpr
  | .selectableValue c _ => c
  | _ => .unit "" ""

/-- Whether every constructor argument of a generated variant constructor
is the literal `Default::default()`. -/
def CtorExpr.allArgsDefault : CtorExpr → Bool
  | .named _ _ args => args.all (fun p => p.2 == RExpr.defaultDefault)
  | .unnamed _ _ args => args.all (fun a => a == RExpr.defaultDefault)
  | .unit _ _ => true

/-- A runtime field value held by an enum variant: either the `Default`
value of its type, or anything else. -/
inductive RVal where
  | defaulted : RVal
  | other : String → RVal
  deriving Repr, DecidableEq

/-- A runtime enum value: the variant it holds and the held field values. -/
structure EnumValue where
  variantIdent : String
  heldFields : List RVal
  deriving Repr, DecidableEq

/-- Evaluating a generated constructor argument at runtime. -/
def RExpr.evalVal : RExpr → RVal
  | .defaultDefault => .defaulted
  | .otherExpr s => .other s

/-- Evaluating a generated variant constructor at runtime. -/
def CtorExpr.evalValue : CtorExpr → EnumValue
  | .named _ i args => ⟨i, args.map (fun p => p.2.evalVal)⟩
  | .unnamed _ i args => ⟨i, args.map RExpr.evalVal⟩
  | .unit _ i => ⟨i, []⟩

/-- Modelled from the egui API (external to this repository):
`Ui::selectable_value(current, selected_value, text)` draws the option
highlighted when `*current == selected_value` and assigns
`*current = selected_value` when the option is clicked, whether or not the
two were already equal. -/
def selectable_value_apply (cur selected : EnumValue) (clicked : Bool) :
    EnumValue :=
  if clicked then selected else cur

/-! ## Helper predicates and totalized forms -/

/-- Whether a field list is a tuple (unnamed) field list. -/
def Fields.isUnnamed : Fields → Bool
  | .unnamed _ => true
  | _ => false

/-- Whether the embedded generator succeeded (the Rust macro did not
panic). -/
def genOk {α : Type} : Except String α → Bool
  | .ok _ => true
  | .error _ => false

/-- The mutable match arm `variant_inspect_arm` produces on the variant
shapes it supports (named fields: loose-bound per-field dispatch; unit: an
empty body).  On an unnamed-fields variant — where `variant_inspect_arm`
panics — this returns an empty body; it is only ever used under the
hypothesis that no variant has unnamed fields. -/
def inspect_arm_total (ip : InternalPathHandler) (variant : Variant)
    (_struct_name : String) : InspectArm :=
  match variant.fields with
  | .named fs =>
      .mk variant.ident (fs.flatMap (fun f => handle_named_field ip f true true))
  | .unnamed _ => .mk variant.ident []
  | .unit => .mk variant.ident []

/-- A trivial internal-path handler (recognizes nothing), used to
instantiate witnesses and counterexamples. -/
def ipNone : InternalPathHandler := fun _ _ _ => none

/-! ## Supporting lemmas -/

/-- The generated `current_variant` match evaluates to the held variant's
own name: every arm returns the `stringify!`-ed identifier of the variant
it matches, so any variant appearing in the enum is mapped to itself. -/
theorem evalNameArms_self (name : String) (variants : List Variant)
    (x : String) (hx : x ∈ variants.map Variant.ident) :
    evalNameArms (variants.map (fun v => variant_name_arm v name)) x = some x := by
  induction variants with
  | nil => simp at hx
  | cons v vs ih =>
    by_cases h : v.ident = x
    · simp [evalNameArms, variant_name_arm, List.find?, h]
    · have hx0 : x = v.ident ∨ x ∈ vs.map Variant.ident := by
        simpa using hx
      have hx' : x ∈ vs.map Variant.ident := by
        rcases hx0 with hx0 | hx0
        · exact absurd hx0.symm h
        · exact hx0
      have hb : (v.ident == x) = false := by
        simp [h]
      simpa [evalNameArms, variant_name_arm, List.find?, hb] using ih hx'

/-- When no variant has unnamed (tuple) fields, collecting the mutable
match arms succeeds and yields the totalized arms. -/
theorem mapM_inspect_arms_ok (ip : InternalPathHandler) (name : String)
    (variants : List Variant)
    (h : variants.all (fun v => !v.fields.isUnnamed) = true) :
    variants.mapM (fun v => variant_inspect_arm ip v name) =
      .ok (variants.map (fun v => inspect_arm_total ip v name)) := by
  induction variants with
  | nil => rfl
  | cons v vs ih =>
    rw [List.all_cons, Bool.and_eq_true] at h
    rw [List.mapM_cons, ih h.2]
    cases hf : v.fields with
    | named fs =>
        simp only [List.map_cons, variant_inspect_arm, inspect_arm_total, hf]
        rfl
    | unnamed n =>
        exact absurd h.1 (by simp [hf, Fields.isUnnamed])
    | unit =>
        simp only [List.map_cons, variant_inspect_arm, inspect_arm_total, hf]
        rfl

/-- When some variant has unnamed (tuple) fields, collecting the mutable
match arms fails (the macro panics at `unimplemented!("TODO: unnamed")`). -/
theorem mapM_inspect_arms_fail (ip : InternalPathHandler) (name : String)
    (variants : List Variant)
    (h : variants.all (fun v => !v.fields.isUnnamed) = false) :
    genOk (variants.mapM (fun v => variant_inspect_arm ip v name)) = false := by
  induction variants with
  | nil => simp at h
  | cons v vs ih =>
    rw [List.mapM_cons]
    cases hf : v.fields with
    | named fs =>
        have h2 : (vs.all fun v => !v.fields.isUnnamed) = false := by
          rw [List.all_cons] at h
          simpa [hf, Fields.isUnnamed] using h
        cases hm : vs.mapM (fun v => variant_inspect_arm ip v name) with
        | ok arms =>
            have hgen := ih h2
            rw [hm] at hgen
            exact absurd hgen (by simp [genOk])
        | error e =>
            simp only [variant_inspect_arm, hf, hm]
            rfl
    | unnamed n =>
        simp only [variant_inspect_arm, hf]
        rfl
    | unit =>
        have h2 : (vs.all fun v => !v.fields.isUnnamed) = false := by
          rw [List.all_cons] at h
          simpa [hf, Fields.isUnnamed] using h
        cases hm : vs.mapM (fun v => variant_inspect_arm ip v name) with
        | ok arms =>
            have hgen := ih h2
            rw [hm] at hgen
            exact absurd hgen (by simp [genOk])
        | error e =>
            simp only [variant_inspect_arm, hf, hm]
            rfl

/-! ## Concrete inputs used in witnesses and counterexamples -/

/-- A concrete named field with default attributes. -/
def fPlain : Field := { ident := "x", ty := "u32", attrs := AttributeArgs.default }

/-- A concrete named field carrying `hide` together with every other
attribute kind, to show `hide` wins over all of them. -/
def fHidden : Field :=
  { ident := "secret", ty := "u32",
    attrs := { name := some "A label", hide := true, no_edit := false,
               slider := true, multiline := true,
               custom_func := some "my_ro", custom_func_mut := some "my_rw" } }

/-- A concrete named field with a mutable custom callback. -/
def fCustom : Field :=
  { ident := "boolean", ty := "bool",
    attrs := { AttributeArgs.default with custom_func_mut := some "custom_bool_inspect" } }

/-- A concrete enum with a unit variant and a named-fields variant. -/
def vGood : List Variant :=
  [ { ident := "AnOptionWithNoData", fields := .unit },
    { ident := "AnOptionWithStructData",
      fields := .named [ { ident := "vec", ty := "Vec", attrs := AttributeArgs.default } ] } ]

/-- A concrete enum with a tuple (unnamed-fields) variant. -/
def vTuple : List Variant :=
  [ { ident := "Unit", fields := .unit },
    { ident := "Pair", fields := .unnamed 2 } ]

/-- A concrete derive input: a plain one-field named struct. -/
def dStruct : DeriveInput :=
  { ident := "MyApp", generics := [], data := .struct (.named [fPlain]) }

/-- A concrete derive input: a union. -/
def dUnion : DeriveInput := { ident := "MyUnion", generics := [], data := .union }

/-- A concrete derive input: an enum with a tuple variant. -/
def dTupleEnum : DeriveInput :=
  { ident := "MyEnum", generics := [], data := .enum vTuple }

/-! ## Properties of the generator -/

/-- C4: evaluation of the tuple-field generator at a one-field tuple
struct, for both directions.  The generated label is `"Field 0"` by index,
and the read-only direction delegates to the field's `inspect` — as
claimed.  But the emitted method identifier is the literal `inspect` in the
mutable direction too (only the reference, `&mut` versus `&`, differs), so
the generated `inspect_mut` does not call the field's `inspect_mut`. -/
theorem C4_unnamed_fields_generated_calls :
    handle_unnamed_fields 1 true =
      [.uiStrong, .qualifiedTraitCall "inspect" true 0 "Field 0"] ∧
    handle_unnamed_fields 1 false =
      [.uiStrong, .qualifiedTraitCall "inspect" false 0 "Field 0"] :=
  ⟨rfl, rfl⟩

/-- C6: for every enum, the generated read-only `inspect` is the
`current_variant` binding followed by exactly one UI-rendering statement,
the single label `"{label}: {current variant name}"`; no statement
inspecting held variant data is generated, and the binding maps every
variant of the enum to its own name. -/
theorem C6_enum_readonly_single_label (ip : InternalPathHandler)
    (variants : List Variant) (name label cur : String) :
    handle_enum ip variants name false =
      .ok [.letCurrentVariant (variants.map (fun v => variant_name_arm v name)),
           .uiLabelFmtLabelCurrent] ∧
    List.filter Stmt.isWidget
        [Stmt.letCurrentVariant (variants.map (fun v => variant_name_arm v name)),
         Stmt.uiLabelFmtLabelCurrent] = [Stmt.uiLabelFmtLabelCurrent] ∧
    List.flatMap
        [Stmt.letCurrentVariant (variants.map (fun v => variant_name_arm v name)),
         Stmt.uiLabelFmtLabelCurrent] (Stmt.labelTexts label cur)
      = [label ++ ": " ++ cur] ∧
    (variants.all fun v =>
      evalNameArms (variants.map (fun w => variant_name_arm w name)) v.ident
        == some v.ident) = true := by
  refine ⟨rfl, rfl, rfl, ?_⟩
  rw [List.all_eq_true]
  intro v hv
  rw [evalNameArms_self name variants v.ident (List.mem_map_of_mem _ hv)]
  exact beq_self_eq_true _

/-- C7: code generation is deterministic and stateless: it is a pure
function of the input token stream (and of the fixed internal-path
handler), so two invocations of the derive macro on the same input produce
identical output token streams. -/
theorem C7_deterministic (ip : InternalPathHandler) (a b : DeriveInput)
    (h : a = b) : derive_egui_inspect ip a = derive_egui_inspect ip b := by
  rw [h]

/-- C7 witness: two invocations on the concrete struct input agree. -/
theorem C7_deterministic_witness :
    dStruct = dStruct ∧
    derive_egui_inspect ipNone dStruct = derive_egui_inspect ipNone dStruct :=
  ⟨rfl, C7_deterministic ipNone dStruct dStruct rfl⟩

/-- C8: `FrameStyle::to_frame` copies the style's inner margin, outer
margin and stroke into the frame unchanged, and `DEFAULT_FRAME_STYLE` has
inner margins of 5 on all four sides, outer margins of 1 left/right and
3/2 = 1.5 top/bottom, and a gray stroke of width 7/10 = 0.7. -/
theorem C8_frame_style (s : FrameStyle) :
    s.to_frame.inner_margin = s.inner_margin ∧
    s.to_frame.outer_margin = s.outer_margin ∧
    s.to_frame.stroke = s.stroke ∧
    DEFAULT_FRAME_STYLE.inner_margin =
      { left := 5, right := 5, bottom := 5, top := 5 } ∧
    DEFAULT_FRAME_STYLE.outer_margin =
      { left := 1, right := 1, bottom := 3/2, top := 3/2 } ∧
    DEFAULT_FRAME_STYLE.stroke = { width := 7/10, color := Color32.GRAY } := by
  refine ⟨rfl, rfl, rfl, rfl, ?_, ?_⟩
  · show (Margin.mk 1 1 1.5 1.5) = Margin.mk 1 1 (3/2) (3/2)
    norm_num
  · show (Stroke.mk 0.7 Color32.GRAY) = Stroke.mk (7/10) Color32.GRAY
    norm_num

/-- C9: a named field carrying the `hide` attribute generates no code at
all — in both the read-only and the mutable direction, whatever the other
attributes say and whatever the internal-path handler would return. -/
theorem C9_hide_generates_nothing (ip : InternalPathHandler) (f : Field)
    (mutable loose : Bool) (h : f.attrs.hide = true) :
    handle_named_field ip f mutable loose = [] := by
  unfold handle_named_field
  simp [h]

/-- C9 witness: the hidden field — which also carries custom callbacks, a
display name and `multiline` — generates nothing in the mutable
direction. -/
theorem C9_hide_generates_nothing_witness :
    fHidden.attrs.hide = true ∧ handle_named_field ipNone fHidden true false = [] :=
  ⟨rfl, C9_hide_generates_nothing ipNone fHidden true false rfl⟩

/-- A concrete named-fields variant, as in the example app's enum. -/
def vStructData : Variant :=
  { ident := "AnOptionWithStructData",
    fields := .named [ { ident := "vec", ty := "Vec",
                         attrs := AttributeArgs.default } ] }

/-- A concrete runtime value currently holding `vStructData` with
non-default data. -/
def curHeld : EnumValue := ⟨"AnOptionWithStructData", [RVal.other "held data"]⟩

/-- C10: every combo-box option the generator emits is
`ui.selectable_value(self, <variant with every held field set to
Default::default()>, <variant name>)`; under the (externally modelled) egui
semantics of `selectable_value`, a click — including a click on the
currently held variant, since highlighting compares by equality while
assignment happens on any click — replaces the value with the fully
defaulted form of that variant, discarding whatever data was held. -/
theorem C10_combo_option_defaults (v : Variant) (name : String)
    (cur : EnumValue) (clicked : Bool) (h : clicked = true) :
    variant_combo v name =
      .selectableValue ((variant_combo v name).selValue) v.ident ∧
    ((variant_combo v name).selValue).allArgsDefault = true ∧
    selectable_value_apply cur ((variant_combo v name).selValue).evalValue clicked =
      ((variant_combo v name).selValue).evalValue ∧
    (((variant_combo v name).selValue).evalValue).variantIdent = v.ident ∧
    ((((variant_combo v name).selValue).evalValue).heldFields.all
      fun r => r == RVal.defaulted) = true := by
  subst h
  cases hf : v.fields with
  | named fs =>
      refine ⟨?_, ?_, rfl, ?_, ?_⟩ <;>
        simp [variant_combo, hf, Stmt.selValue, CtorExpr.allArgsDefault,
              CtorExpr.evalValue, RExpr.evalVal, EnumValue.variantIdent,
              List.all_eq_true]
  | unnamed n =>
      refine ⟨?_, ?_, rfl, ?_, ?_⟩ <;>
        simp [variant_combo, hf, Stmt.selValue, CtorExpr.allArgsDefault,
              CtorExpr.evalValue, RExpr.evalVal, EnumValue.variantIdent,
              List.all_eq_true]
  | unit =>
      refine ⟨?_, ?_, rfl, ?_, ?_⟩ <;>
        simp [variant_combo, hf, Stmt.selValue, CtorExpr.allArgsDefault,
              CtorExpr.evalValue, RExpr.evalVal, EnumValue.variantIdent,
              List.all_eq_true]

/-- C10 witness: clicking the option of the very variant currently held —
here holding non-default data — yields that variant fully defaulted. -/
theorem C10_combo_option_defaults_witness :
    (true : Bool) = true ∧
    (variant_combo vStructData "MyEnum" =
      .selectableValue ((variant_combo vStructData "MyEnum").selValue)
        "AnOptionWithStructData" ∧
    ((variant_combo vStructData "MyEnum").selValue).allArgsDefault = true ∧
    selectable_value_apply curHeld
        ((variant_combo vStructData "MyEnum").selValue).evalValue true =
      ((variant_combo vStructData "MyEnum").selValue).evalValue ∧
    (((variant_combo vStructData "MyEnum").selValue).evalValue).variantIdent =
      "AnOptionWithStructData" ∧
    ((((variant_combo vStructData "MyEnum").selValue).evalValue).heldFields.all
      fun r => r == RVal.defaulted) = true) :=
  ⟨rfl, C10_combo_option_defaults vStructData "MyEnum" curHeld true rfl⟩

/-- C1: for a named field without `hide`, the widget binding is resolved in
priority order under the effective mutability `m = mutable && !no_edit`:
first the explicit custom callback when one is given (`custom_func_mut`
when the binding is mutable, `custom_func` when it is read-only), otherwise
whatever the `internal_paths` specialization returns when it recognizes the
field, otherwise the generic fallback calling the field's own
`inspect_mut` / `inspect` trait method on `self.field` (or on the loose
binding inside an enum match arm). -/
theorem C1_widget_binding_priority (ip : InternalPathHandler) (f : Field)
    (mutable loose : Bool) (h : f.attrs.hide = false) :
    handle_named_field ip f mutable loose =
      (let m := mutable && !f.attrs.no_edit
       let nm := f.attrs.name.getD f.ident
       let base : RBase :=
         if loose then .loose_var f.ident else .self_field f.ident
       match (if m then f.attrs.custom_func_mut else f.attrs.custom_func) with
       | some g => [.customCall g m f.ident nm]
       | none =>
         match ip f m f.attrs with
         | some ts => ts
         | none =>
             if m then [.methodInspectMut base nm]
             else [.methodInspect base nm]) := by
  obtain ⟨fi, fty, nm, hide, ne, sl, ml, cf, cfm⟩ := f
  simp only at h
  subst h
  cases mutable <;> cases ne <;> cases cfm <;> cases cf <;> cases nm <;>
    simp [handle_named_field, handle_custom_func, get_default_function_call,
          Option.getD]

/-- C1 witness: a field with a mutable custom callback resolves to that
callback in the mutable direction. -/
theorem C1_widget_binding_priority_witness :
    fCustom.attrs.hide = false ∧
    handle_named_field ipNone fCustom true false =
      [Stmt.customCall "custom_bool_inspect" true "boolean" "boolean"] :=
  ⟨rfl, C1_widget_binding_priority ipNone fCustom true false rfl⟩

/-- Every generated combo option is labelled with its variant's name. -/
theorem comboText_variant_combo (v : Variant) (name : String) :
    (variant_combo v name).comboText = some v.ident := by
  cases hf : v.fields <;> simp [variant_combo, hf, Stmt.comboText]

/-- Every generated mutable match arm is for its own variant. -/
theorem inspect_arm_total_ident (ip : InternalPathHandler) (v : Variant)
    (name : String) :
    (inspect_arm_total ip v name).variantIdent = v.ident := by
  cases hf : v.fields <;> simp [inspect_arm_total, hf, InspectArm.variantIdent]

/-- C2 (amended): on every input on which the macro does not panic — i.e.
whenever both method bodies generate — the output is one single impl of
`egui_inspect::EguiInspect` for the input type (with the `EguiInspect`
bound added to each generic parameter), providing exactly the two methods
`inspect` (read-only, `&self`) and `inspect_mut` (editable, `&mut self`),
each taking a label and a mutable reference to the UI context. -/
theorem C2_single_impl_both_methods (ip : InternalPathHandler)
    (input : DeriveInput) (ins insMut : TokenStream)
    (h1 : inspect_struct ip input.data input.ident false = .ok ins)
    (h2 : inspect_struct ip input.data input.ident true = .ok insMut) :
    derive_egui_inspect ip input =
      .ok [.implBlock
        { traitName := "egui_inspect::EguiInspect",
          typeName := input.ident,
          generics := add_trait_bounds input.generics,
          methods :=
            [{ name := "inspect", selfParam := "&self",
               params := [("label", "&str"), ("ui", "&mut egui::Ui")],
               body := ins },
             { name := "inspect_mut", selfParam := "&mut self",
               params := [("label", "&str"), ("ui", "&mut egui::Ui")],
               body := insMut }] }] := by
  unfold derive_egui_inspect
  dsimp only
  rw [h1, h2]
  rfl

/-- C2 counterexample: applying the derive macro to a union yields no impl
at all — generation aborts with the panic message
"Unions are not yet supported". -/
theorem C2_union_produces_no_impl :
    derive_egui_inspect ipNone dUnion = .error "Unions are not yet supported" :=
  rfl

/-- C2 witness: both bodies of the concrete one-field struct generate, and
the macro emits the single two-method impl. -/
theorem C2_single_impl_both_methods_witness :
    inspect_struct ipNone dStruct.data dStruct.ident false =
      .ok [Stmt.uiStrong, Stmt.methodInspect (.self_field "x") "x"] ∧
    inspect_struct ipNone dStruct.data dStruct.ident true =
      .ok [Stmt.uiStrong, Stmt.methodInspectMut (.self_field "x") "x"] ∧
    derive_egui_inspect ipNone dStruct =
      .ok [.implBlock
        { traitName := "egui_inspect::EguiInspect",
          typeName := dStruct.ident,
          generics := add_trait_bounds dStruct.generics,
          methods :=
            [{ name := "inspect", selfParam := "&self",
               params := [("label", "&str"), ("ui", "&mut egui::Ui")],
               body := [Stmt.uiStrong, Stmt.methodInspect (.self_field "x") "x"] },
             { name := "inspect_mut", selfParam := "&mut self",
               params := [("label", "&str"), ("ui", "&mut egui::Ui")],
               body := [Stmt.uiStrong,
                        Stmt.methodInspectMut (.self_field "x") "x"] }] }] :=
  ⟨rfl, rfl, C2_single_impl_both_methods ipNone dStruct _ _ rfl rfl⟩

/-- C3 (amended): the generator walks every struct shape (named fields,
tuple fields, unit) in both directions and every enum in the read-only
direction without failing; the mutable direction on an enum succeeds
exactly when no variant has tuple (unnamed) fields — on a tuple variant it
panics with `unimplemented!("TODO: unnamed")`. -/
theorem C3_shape_coverage (ip : InternalPathHandler) :
    (∀ fields name mutable,
      genOk (inspect_struct ip (.struct fields) name mutable) = true) ∧
    (∀ variants name,
      genOk (inspect_struct ip (.enum variants) name false) = true) ∧
    (∀ variants name,
      genOk (inspect_struct ip (.enum variants) name true) =
        (variants.all fun v => !v.fields.isUnnamed)) := by
  refine ⟨fun fields name mutable => rfl, fun variants name => rfl, ?_⟩
  intro variants name
  cases hall : variants.all (fun v => !v.fields.isUnnamed) with
  | true =>
      show genOk (handle_enum ip variants name true) = true
      unfold handle_enum
      rw [if_pos rfl, mapM_inspect_arms_ok ip name variants hall]
      rfl
  | false =>
      show genOk (handle_enum ip variants name true) = false
      have hfail := mapM_inspect_arms_fail ip name variants hall
      cases hm : variants.mapM (fun v => variant_inspect_arm ip v name) with
      | ok arms =>
          rw [hm] at hfail
          exact absurd hfail (by simp [genOk])
      | error e =>
          unfold handle_enum
          rw [if_pos rfl, hm]
          rfl

/-- C3 counterexample: an enum with a tuple (unnamed-fields) variant makes
the mutable direction fail: the macro panics instead of producing
widget-binding code. -/
theorem C3_tuple_variant_enum_fails :
    inspect_struct ipNone (.enum vTuple) "MyEnum" true = .error "TODO: unnamed" :=
  rfl

/-- C5 (amended): for every enum none of whose variants has tuple
(unnamed) fields, the generated `inspect_mut` renders a horizontal row
with the enum's name and a combo box whose selected text is the
`current_variant` binding — which maps the currently held variant to its
own name — listing one selectable option per variant, each labelled with
its variant's name; it then matches `self` and inspects the fields held by
the current variant (per-field dispatch for named fields, nothing for unit
variants). -/
theorem C5_enum_mut_combo (ip : InternalPathHandler) (variants : List Variant)
    (name : String)
    (h : (variants.all fun v => !v.fields.isUnnamed) = true) :
    handle_enum ip variants name true =
      .ok [.letCurrentVariant (variants.map (fun v => variant_name_arm v name)),
           .uiHorizontal [.uiLabelStructName name,
                          .comboBox "current_variant"
                            (variants.map (fun v => variant_combo v name))],
           .matchSelf (variants.map (fun v => inspect_arm_total ip v name))] ∧
    (variants.map (fun v => variant_combo v name)).length = variants.length ∧
    (variants.map fun v => (variant_combo v name).comboText) =
      (variants.map fun v => some v.ident) ∧
    (variants.all fun v =>
      evalNameArms (variants.map (fun w => variant_name_arm w name)) v.ident
        == some v.ident) = true ∧
    ((variants.map fun v => inspect_arm_total ip v name).map
        InspectArm.variantIdent) = variants.map Variant.ident := by
  refine ⟨?_, by simp, ?_, ?_, ?_⟩
  · unfold handle_enum
    rw [if_pos rfl, mapM_inspect_arms_ok ip name variants h]
    rfl
  · exact List.map_congr_left fun v _ => comboText_variant_combo v name
  · rw [List.all_eq_true]
    intro v hv
    rw [evalNameArms_self name variants v.ident (List.mem_map_of_mem _ hv)]
    exact beq_self_eq_true _
  · rw [List.map_map]
    exact List.map_congr_left fun v _ => inspect_arm_total_ident ip v name

/-- C5 counterexample: for an enum holding a tuple variant no `inspect_mut`
body is generated at all — no combo box is rendered, the macro panics. -/
theorem C5_tuple_variant_no_combo :
    handle_enum ipNone [{ ident := "OnlyPair", fields := .unnamed 1 }] "E" true =
      .error "TODO: unnamed" :=
  rfl

/-- C5 witness: the concrete two-variant enum (unit variant plus
named-fields variant) generates the full mutable combo-box body. -/
theorem C5_enum_mut_combo_witness :
    (vGood.all fun v => !v.fields.isUnnamed) = true ∧
    (handle_enum ipNone vGood "MyEnum" true =
      .ok [.letCurrentVariant (vGood.map (fun v => variant_name_arm v "MyEnum")),
           .uiHorizontal [.uiLabelStructName "MyEnum",
                          .comboBox "current_variant"
                            (vGood.map (fun v => variant_combo v "MyEnum"))],
           .matchSelf (vGood.map (fun v => inspect_arm_total ipNone v "MyEnum"))] ∧
    (vGood.map (fun v => variant_combo v "MyEnum")).length = vGood.length ∧
    (vGood.map fun v => (variant_combo v "MyEnum").comboText) =
      (vGood.map fun v => some v.ident) ∧
    (vGood.all fun v =>
      evalNameArms (vGood.map (fun w => variant_name_arm w "MyEnum")) v.ident
        == some v.ident) = true ∧
    ((vGood.map fun v => inspect_arm_total ipNone v "MyEnum").map
        InspectArm.variantIdent) = vGood.map Variant.ident) :=
  ⟨rfl, C5_enum_mut_combo ipNone vGood "MyEnum" rfl⟩

end Egui
